import Mathlib

/-!
Verification of the event-ingestion pipeline and REST facade of the
azure-communication-services reference repository.

The embedding follows `src/src/python/functions/function_app.py` (event
handlers, health check) and `src/src/python/app.py` (REST facade).
Python dictionaries carrying JSON data are modelled as association lists
over a `Val` type; Python exceptions raised by the handler bodies are
modelled with `Except`; Cosmos DB writes performed by `upsert_item` are
recorded as a list of `StoreWrite` values.
-/

/-- A JSON-like Python value as it appears in event payloads. -/
inductive Val where
  | null
  | bool (b : Bool)
  | int (n : Int)
  | str (s : String)
  | arr (xs : List Val)
  | obj (fields : List (String × Val))

mutual

/-- Boolean equality on `Val`, spelled out because the inductive nests
lists. -/
def Val.beq : Val → Val → Bool
  | Val.null, Val.null => true
  | Val.bool a, Val.bool b => a == b
  | Val.int a, Val.int b => a == b
  | Val.str a, Val.str b => a == b
  | Val.arr a, Val.arr b => Val.beqList a b
  | Val.obj a, Val.obj b => Val.beqFields a b
  | _, _ => false

def Val.beqList : List Val → List Val → Bool
  | [], [] => true
  | x :: xs, y :: ys => Val.beq x y && Val.beqList xs ys
  | _, _ => false

def Val.beqFields : List (String × Val) → List (String × Val) → Bool
  | [], [] => true
  | (k1, v1) :: xs, (k2, v2) :: ys =>
      k1 == k2 && Val.beq v1 v2 && Val.beqFields xs ys
  | _, _ => false

end

mutual

theorem Val.eq_of_beq : ∀ (a b : Val), Val.beq a b = true → a = b
  | Val.null, Val.null, _ => rfl
  | Val.bool a, Val.bool b, h => by
      simpa [Val.beq] using h
  | Val.int a, Val.int b, h => by
      simpa [Val.beq] using h
  | Val.str a, Val.str b, h => by
      simpa [Val.beq] using h
  | Val.arr a, Val.arr b, h => by
      rw [Val.eqList_of_beq a b (by simpa [Val.beq] using h)]
  | Val.obj a, Val.obj b, h => by
      rw [Val.eqFields_of_beq a b (by simpa [Val.beq] using h)]

theorem Val.eqList_of_beq : ∀ (a b : List Val), Val.beqList a b = true → a = b
  | [], [], _ => rfl
  | x :: xs, y :: ys, h => by
      have h' := h
      simp only [Val.beqList, Bool.and_eq_true] at h'
      rw [Val.eq_of_beq x y h'.1, Val.eqList_of_beq xs ys h'.2]

theorem Val.eqFields_of_beq :
    ∀ (a b : List (String × Val)), Val.beqFields a b = true → a = b
  | [], [], _ => rfl
  | (k1, v1) :: xs, (k2, v2) :: ys, h => by
      have h' := h
      simp only [Val.beqFields, Bool.and_eq_true, beq_iff_eq] at h'
      rw [h'.1.1, Val.eq_of_beq v1 v2 h'.1.2, Val.eqFields_of_beq xs ys h'.2]

end

mutual

theorem Val.beq_refl : ∀ (a : Val), Val.beq a a = true
  | Val.null => rfl
  | Val.bool a => by simp [Val.beq]
  | Val.int a => by simp [Val.beq]
  | Val.str a => by simp [Val.beq]
  | Val.arr a => by simpa [Val.beq] using Val.beqList_refl a
  | Val.obj a => by simpa [Val.beq] using Val.beqFields_refl a

theorem Val.beqList_refl : ∀ (a : List Val), Val.beqList a a = true
  | [] => rfl
  | x :: xs => by
      simp only [Val.beqList, Bool.and_eq_true]
      exact ⟨Val.beq_refl x, Val.beqList_refl xs⟩

theorem Val.beqFields_refl : ∀ (a : List (String × Val)), Val.beqFields a a = true
  | [] => rfl
  | (k, v) :: xs => by
      simp only [Val.beqFields, Bool.and_eq_true, beq_iff_eq]
      exact ⟨⟨trivial, Val.beq_refl v⟩, Val.beqFields_refl xs⟩

end

instance : DecidableEq Val := fun a b =>
  if h : Val.beq a b = true then isTrue (Val.eq_of_beq a b h)
  else isFalse (fun he => h (he ▸ Val.beq_refl a))

/-- Association-list field lookup, the embedding of `d[k]` presence in a
Python dict (first binding wins, as in a dict each key occurs once). -/
def getField {α : Type} : List (String × α) → String → Option α
  | [], _ => none
  | (k, v) :: rest, key => if k = key then some v else getField rest key

/-- Python `d.get(k)`: the stored value, or `None` when the key is absent. -/
def dget (d : List (String × Val)) (k : String) : Val :=
  match getField d k with
  | some v => v
  | none => Val.null

/-- Python `d.get(k, default)`. -/
def dgetD (d : List (String × Val)) (k : String) (dflt : Val) : Val :=
  match getField d k with
  | some v => v
  | none => dflt

/-- Python exceptions that the handler bodies can raise. -/
inductive PyErr where
  | typeError (msg : String)
  | attributeError (msg : String)
  deriving DecidableEq

/-- Python `v[:20]` used in the log statements: slicing succeeds on strings
and lists, raises `TypeError` on `None` and on dicts. -/
def pySlice : Val → Except PyErr Unit
  | Val.str _ => Except.ok ()
  | Val.arr _ => Except.ok ()
  | Val.null => Except.error (PyErr.typeError "NoneType object is not subscriptable")
  | Val.bool _ => Except.error (PyErr.typeError "bool object is not subscriptable")
  | Val.int _ => Except.error (PyErr.typeError "int object is not subscriptable")
  | Val.obj _ => Except.error (PyErr.typeError "unhashable type: slice")

/-- Python `for x in v`: lists yield their elements, strings their
one-character substrings, dicts their keys; other values are not iterable. -/
def pyIter : Val → Except PyErr (List Val)
  | Val.arr xs => Except.ok xs
  | Val.str s => Except.ok (s.data.map (fun c => Val.str (String.singleton c)))
  | Val.obj fields => Except.ok (fields.map (fun kv => Val.str kv.1))
  | Val.null => Except.error (PyErr.typeError "NoneType object is not iterable")
  | Val.bool _ => Except.error (PyErr.typeError "bool object is not iterable")
  | Val.int _ => Except.error (PyErr.typeError "int object is not iterable")

/-- Python `v.get(k, default)` on a value that must be a dict: raises
`AttributeError` otherwise. -/
def pyGetD (v : Val) (k : String) (dflt : Val) : Except PyErr Val :=
  match v with
  | Val.obj fields => Except.ok (dgetD fields k dflt)
  | _ => Except.error (PyErr.attributeError "object has no attribute get")

/-- One `container.upsert_item(...)` call: the target container and the
item dictionary passed to it. -/
structure StoreWrite where
  container : String
  item : List (String × Val)
  deriving DecidableEq

/-- `process_sms_received` from `function_app.py`: builds `sms_data`, and
when `COSMOS_ENDPOINT` is set upserts the audit record into `call-logs`.
`cosmosEndpoint` models the `COSMOS_ENDPOINT` environment variable, `now`
the `datetime.utcnow().isoformat()` timestamp. -/
def process_sms_received (cosmosEndpoint : Option String) (eventId : String)
    (data : List (String × Val)) (now : String) : Except PyErr (List StoreWrite) :=
  let sms_data : List (String × Val) :=
    [("id", Val.str eventId),
     ("type", Val.str "sms_received"),
     ("messageId", dget data "messageId"),
     ("from", dget data "from"),
     ("to", dget data "to"),
     ("message", dget data "message"),
     ("receivedAt", dget data "receivedTimestamp"),
     ("processedAt", Val.str now)]
  match cosmosEndpoint with
  | none => Except.ok []
  | some _ => Except.ok
      [StoreWrite.mk "call-logs"
        [("id", Val.str eventId),
         ("callId", dget data "messageId"),
         ("type", Val.str "sms"),
         ("direction", Val.str "inbound"),
         ("data", Val.obj sms_data)]]

/-- `process_chat_message` from `function_app.py`: the log statement slices
`thread_id[:20]` and `sender_id[:20]` before the store write, so a missing
`threadId` or `senderId` (Python `None`) raises `TypeError` there. -/
def process_chat_message (cosmosEndpoint : Option String) (eventId : String)
    (data : List (String × Val)) (now : String) : Except PyErr (List StoreWrite) := do
  let thread_id := dget data "threadId"
  let sender_id := dget data "senderId"
  let message := dget data "messageBody"
  let _ ← pySlice thread_id
  let _ ← pySlice sender_id
  let writes : List StoreWrite :=
    match cosmosEndpoint with
    | none => []
    | some _ =>
        [StoreWrite.mk "chat-history"
          [("id", Val.str eventId),
           ("threadId", thread_id),
           ("senderId", sender_id),
           ("message", message),
           ("timestamp", dget data "transactionId"),
           ("processedAt", Val.str now)]]
  pure writes

/-- `process_thread_created` from `function_app.py`: log-only, but the log
statement slices `thread_id[:20]` and `created_by[:20]`. -/
def process_thread_created (eventId : String) (data : List (String × Val)) :
    Except PyErr (List StoreWrite) := do
  let thread_id := dget data "threadId"
  let created_by := dget data "createdBy"
  let _ ← pySlice thread_id
  let _ ← pySlice created_by
  pure []

/-- The loop body of `process_participant_added`: for each participant the
log statement slices `thread_id[:20]` and `p.get('id', '')[:20]`. -/
def participantLoop (thread_id : Val) : List Val → Except PyErr Unit
  | [] => Except.ok ()
  | p :: rest => do
      let _ ← pySlice thread_id
      let pid ← pyGetD p "id" (Val.str "")
      let _ ← pySlice pid
      participantLoop thread_id rest

/-- `process_participant_added` from `function_app.py`: log-only, iterating
`data.get("participantsAdded", [])`. -/
def process_participant_added (eventId : String) (data : List (String × Val)) :
    Except PyErr (List StoreWrite) := do
  let thread_id := dget data "threadId"
  let participants := dgetD data "participantsAdded" (Val.arr [])
  let ps ← pyIter participants
  let _ ← participantLoop thread_id ps
  pure []

/-- The chunk loop of `process_recording_event`: each chunk's
`contentLocation` and `deleteLocation` are read with `.get`, which requires
the chunk to be a dict. -/
def chunkLoop : List Val → Except PyErr Unit
  | [] => Except.ok ()
  | chunk :: rest => do
      let _ ← pyGetD chunk "contentLocation" Val.null
      let _ ← pyGetD chunk "deleteLocation" Val.null
      chunkLoop rest

/-- `process_recording_event` from `function_app.py`: reads
`data.get("recordingStorageInfo", {})`, then
`recording_status.get("recordingChunks", [])`, iterates the chunks, and
when `COSMOS_ENDPOINT` is set upserts the recording record into
`call-logs` with constant `status = "available"`. -/
def process_recording_event (cosmosEndpoint : Option String) (eventId : String)
    (data : List (String × Val)) (now : String) : Except PyErr (List StoreWrite) := do
  let recording_status := dgetD data "recordingStorageInfo" (Val.obj [])
  let recording_chunks ← pyGetD recording_status "recordingChunks" (Val.arr [])
  let chunks ← pyIter recording_chunks
  let _ ← chunkLoop chunks
  let writes : List StoreWrite :=
    match cosmosEndpoint with
    | none => []
    | some _ =>
        [StoreWrite.mk "call-logs"
          [("id", Val.str eventId),
           ("callId", dget data "serverCallId"),
           ("type", Val.str "recording"),
           ("status", Val.str "available"),
           ("chunks", recording_chunks),
           ("processedAt", Val.str now)]]
  pure writes

/-- The event types `process_chat_event` dispatches on, together with the
SMS and recording event types handled by the dedicated trigger functions. -/
def knownEventTypes : List String :=
  ["Microsoft.Communication.SMSReceived",
   "Microsoft.Communication.ChatMessageReceived",
   "Microsoft.Communication.ChatThreadCreated",
   "Microsoft.Communication.ChatParticipantAdded",
   "Microsoft.Communication.RecordingFileStatusUpdated"]

/-- `process_chat_event` from `function_app.py`: routes on `event_type`;
an unknown type only logs a warning (returned as the second component)
and succeeds with no store write. -/
def process_chat_event (cosmosEndpoint : Option String) (eventType eventId : String)
    (data : List (String × Val)) (now : String) :
    Except PyErr (List StoreWrite × List String) :=
  if eventType = "Microsoft.Communication.ChatMessageReceived" then
    (process_chat_message cosmosEndpoint eventId data now).map (fun ws => (ws, []))
  else if eventType = "Microsoft.Communication.ChatThreadCreated" then
    (process_thread_created eventId data).map (fun ws => (ws, []))
  else if eventType = "Microsoft.Communication.ChatParticipantAdded" then
    (process_participant_added eventId data).map (fun ws => (ws, []))
  else
    Except.ok ([], ["Unknown chat event type: " ++ eventType])

/-- Outcome of the lightweight Cosmos probe
(`list(database.list_containers(max_item_count=1))`): either it returns, or
it raises with a given exception text (Python `str(e)`). -/
inductive ProbeResult where
  | ok
  | fail (err : String)
  deriving DecidableEq

/-- Result of one `health_check` tick: the `health_status` dictionary and
the number of `get_cosmos_client()` constructions performed. -/
structure HealthOutcome where
  snapshot : List (String × String)
  clientConstructions : Nat
  deriving DecidableEq

/-- `health_check` from `function_app.py`: starts from
`{timestamp, cosmos_db: "unknown", key_vault: "unknown"}`; when
`COSMOS_ENDPOINT` is set it constructs a client and probes, setting
`cosmos_db` to `"healthy"` or `"unhealthy: " ++ err` (the exception is
caught, never re-raised); when unset it sets `"not configured"` without
constructing a client. -/
def health_check (cosmosEndpoint : Option String) (probe : ProbeResult)
    (now : String) : HealthOutcome :=
  match cosmosEndpoint with
  | none =>
      HealthOutcome.mk
        [("timestamp", now), ("cosmos_db", "not configured"), ("key_vault", "unknown")] 0
  | some _ =>
      match probe with
      | ProbeResult.ok =>
          HealthOutcome.mk
            [("timestamp", now), ("cosmos_db", "healthy"), ("key_vault", "unknown")] 1
      | ProbeResult.fail e =>
          HealthOutcome.mk
            [("timestamp", now), ("cosmos_db", "unhealthy: " ++ e), ("key_vault", "unknown")] 1

/-- Modelled from the spec: the Idempotent Upsert Store of spec section 4.4.
The underlying document store (the Cosmos DB service behind
`container.upsert_item`) is not part of src/; only its caller is. The spec
defines `upsert(record)` as addressing a single logical slot by
`(id, partitionKey)`, inserting when absent and overwriting when present. -/
def store_upsert (s : List ((String × String) × Val)) (id pk : String)
    (payload : Val) : List ((String × String) × Val) :=
  ((id, pk), payload) :: s.filter (fun e => !((e.1.1 == id) && (e.1.2 == pk)))

/-- The records the store holds at the slot addressed by `(id, pk)`. -/
def store_slot (s : List ((String × String) × Val)) (id pk : String) : List Val :=
  (s.filter (fun e => (e.1.1 == id) && (e.1.2 == pk))).map (fun e => e.2)

/-- A parsed inbound event: the envelope fields the handlers consume. -/
structure Envelope where
  id : String
  event_type : String
  data : List (String × Val)
  deriving DecidableEq

/-- Failure of envelope parsing. -/
inductive EnvelopeErr where
  | malformedEnvelope
  deriving DecidableEq

/-- Modelled from the spec: the Event Envelope Parser of spec section 4.1.
Envelope decoding is performed by the hosting runtime
(`func.EventGridEvent`), not by code under src/; only its consumers are.
Per the spec it fails with `MalformedEnvelope` when `id` or `event_type`
is absent or not a string, and validates `data` only as far as being a
key-value mapping (absent `data` is an empty mapping). -/
def parse_envelope (raw : Val) : Except EnvelopeErr Envelope :=
  match raw with
  | Val.obj fields =>
      match getField fields "id" with
      | some (Val.str id) =>
          match getField fields "event_type" with
          | some (Val.str et) =>
              match dgetD fields "data" (Val.obj []) with
              | Val.obj d => Except.ok (Envelope.mk id et d)
              | _ => Except.error EnvelopeErr.malformedEnvelope
          | _ => Except.error EnvelopeErr.malformedEnvelope
      | _ => Except.error EnvelopeErr.malformedEnvelope
  | _ => Except.error EnvelopeErr.malformedEnvelope

/-- An ingestion failure: a parse failure, or an exception escaping the
handler that processed the event. -/
inductive IngestErr where
  | malformedEnvelope
  | handlerError (e : PyErr)
  deriving DecidableEq

/-- Modelled from the spec: the Event Router of spec section 4.2. The
delivery of each event type to its trigger function is Event Grid
subscription configuration, not code under src/; the in-src routing is
`process_chat_event`, to which all chat-topic types fall. SMS and
recording events go to their dedicated trigger functions. -/
def route_event (cosmosEndpoint : Option String) (env : Envelope) (now : String) :
    Except PyErr (List StoreWrite × List String) :=
  if env.event_type = "Microsoft.Communication.SMSReceived" then
    (process_sms_received cosmosEndpoint env.id env.data now).map (fun ws => (ws, []))
  else if env.event_type = "Microsoft.Communication.RecordingFileStatusUpdated" then
    (process_recording_event cosmosEndpoint env.id env.data now).map (fun ws => (ws, []))
  else
    process_chat_event cosmosEndpoint env.event_type env.id env.data now

/-- The ingestion pipeline: parse the raw notification, then route the
parsed event. A parse failure reaches no handler, so it produces no store
write. -/
def ingest (cosmosEndpoint : Option String) (raw : Val) (now : String) :
    Except IngestErr (List StoreWrite × List String) :=
  match parse_envelope raw with
  | Except.error _ => Except.error IngestErr.malformedEnvelope
  | Except.ok env =>
      match route_event cosmosEndpoint env now with
      | Except.error e => Except.error (IngestErr.handlerError e)
      | Except.ok r => Except.ok r

/-- Python exceptions distinguished by the REST facade's `handle_errors`
decorator in `app.py`: `ValueError`, `HttpResponseError` (whose
`status_code` may be `None`), and anything else. -/
inductive PyExc where
  | valueError (msg : String)
  | httpResponseError (msg : String) (statusCode : Option Nat)
  | otherError (msg : String)
  deriving DecidableEq

/-- A Flask response: JSON body and HTTP status. -/
structure HttpResponse where
  body : List (String × Val)
  status : Nat
  deriving DecidableEq

/-- `handle_errors` from `app.py`: runs the wrapped view; `ValueError`
becomes a 400 `validation_error` body, `HttpResponseError` becomes an
`acs_error` body with status `e.status_code or 500` (Python `or`: `None`
and `0` both fall back to 500), anything else becomes a 500
`internal_error` body. It returns a response in every case. -/
def handle_errors (f : Except PyExc HttpResponse) : HttpResponse :=
  match f with
  | Except.ok r => r
  | Except.error (PyExc.valueError m) =>
      HttpResponse.mk
        [("error", Val.str m), ("type", Val.str "validation_error")] 400
  | Except.error (PyExc.httpResponseError m sc) =>
      HttpResponse.mk
        [("error", Val.str m), ("type", Val.str "acs_error"),
         ("status_code", match sc with
           | some n => Val.int (Int.ofNat n)
           | none => Val.null)]
        (match sc with
         | some n => if n = 0 then 500 else n
         | none => 500)
  | Except.error (PyExc.otherError _) =>
      HttpResponse.mk
        [("error", Val.str "Internal server error"), ("type", Val.str "internal_error")] 500

/-- The result object of `sms_client.send` for one recipient. -/
structure SmsSendResult where
  message_id : String
  «to» : String
  successful : Bool
  http_status_code : Int
  deriving DecidableEq

/-- The body of the `send_sms` view in `app.py`, before `handle_errors`
wraps it: `request.get_json()` is `reqBody` (`none` when the request has
no JSON body; an empty dict is also falsy), the required-field loop
checks `from`, `to`, `message` in order and returns a 400 body holding
only an `error` field, and the `sms_client.send` call either raises
(`send = error`) or yields its first result. -/
def send_sms_view (reqBody : Option (List (String × Val)))
    (send : Except PyExc SmsSendResult) : Except PyExc HttpResponse :=
  match reqBody with
  | none => Except.ok (HttpResponse.mk [("error", Val.str "Request body required")] 400)
  | some data =>
      if data = [] then
        Except.ok (HttpResponse.mk [("error", Val.str "Request body required")] 400)
      else if getField data "from" = none then
        Except.ok (HttpResponse.mk [("error", Val.str "Missing required field: from")] 400)
      else if getField data "to" = none then
        Except.ok (HttpResponse.mk [("error", Val.str "Missing required field: to")] 400)
      else if getField data "message" = none then
        Except.ok (HttpResponse.mk [("error", Val.str "Missing required field: message")] 400)
      else
        match send with
        | Except.error e => Except.error e
        | Except.ok result =>
            Except.ok (HttpResponse.mk
              [("message_id", Val.str result.message_id),
               ("to", Val.str result.«to»),
               ("successful", Val.bool result.successful),
               ("http_status", Val.int result.http_status_code)] 200)

/-- The `/api/v1/sms/send` endpoint: `send_sms` wrapped by `handle_errors`. -/
def send_sms_endpoint (reqBody : Option (List (String × Val)))
    (send : Except PyExc SmsSendResult) : HttpResponse :=
  handle_errors (send_sms_view reqBody send)

theorem filter_slot_of_filter_not (id pk : String)
    (s : List ((String × String) × Val)) :
    ((s.filter (fun e => !((e.1.1 == id) && (e.1.2 == pk)))).filter
      (fun e => (e.1.1 == id) && (e.1.2 == pk))) = [] := by
  rw [List.filter_filter]
  simp

/-- C2: calling the store's upsert twice at the same `(id, partitionKey)`
leaves exactly one record at that slot, equal to the payload of the latest
call — last-write-wins, no duplication. -/
theorem claim_store_upsert_last_write_wins
    (s : List ((String × String) × Val)) (id pk : String) (p1 p2 : Val) :
    store_slot (store_upsert (store_upsert s id pk p1) id pk p2) id pk = [p2] := by
  simp only [store_upsert, store_slot, List.filter_cons]
  simp [filter_slot_of_filter_not id pk s]

/-- C1: every record a persisting handler writes with the store configured
has `id` equal to the inbound event's id, and its partition-key field
(`callId` for SMS and recording, `threadId` for chat) holds the
kind-specific payload field — `messageId`, `threadId`, `serverCallId`
respectively — a value computed from the payload alone, never from the
event id. -/
theorem claim_record_id_and_partition_key (ep eid : String)
    (data : List (String × Val)) (now : String) :
    (∀ ws, process_sms_received (some ep) eid data now = Except.ok ws →
      ∀ w ∈ ws, getField w.item "id" = some (Val.str eid) ∧
        getField w.item "callId" = some (dget data "messageId")) ∧
    (∀ ws, process_chat_message (some ep) eid data now = Except.ok ws →
      ∀ w ∈ ws, getField w.item "id" = some (Val.str eid) ∧
        getField w.item "threadId" = some (dget data "threadId")) ∧
    (∀ ws, process_recording_event (some ep) eid data now = Except.ok ws →
      ∀ w ∈ ws, getField w.item "id" = some (Val.str eid) ∧
        getField w.item "callId" = some (dget data "serverCallId")) := by
  refine ⟨?_, ?_, ?_⟩
  · intro ws h w hw
    simp only [process_sms_received] at h
    cases h
    simp only [List.mem_singleton] at hw
    subst hw
    refine ⟨?_, ?_⟩ <;> simp [getField]
  · intro ws h w hw
    cases hT : pySlice (dget data "threadId") with
    | error e => simp [process_chat_message, hT, bind, Except.bind] at h
    | ok u =>
      cases hS : pySlice (dget data "senderId") with
      | error e => simp [process_chat_message, hT, hS, bind, Except.bind] at h
      | ok u2 =>
        simp [process_chat_message, hT, hS, bind, Except.bind, pure, Except.pure] at h
        subst h
        simp only [List.mem_singleton] at hw
        subst hw
        refine ⟨?_, ?_⟩ <;> simp [getField]
  · intro ws h w hw
    cases hG : pyGetD (dgetD data "recordingStorageInfo" (Val.obj []))
        "recordingChunks" (Val.arr []) with
    | error e => simp [process_recording_event, hG, bind, Except.bind] at h
    | ok rc =>
      cases hI : pyIter rc with
      | error e => simp [process_recording_event, hG, hI, bind, Except.bind] at h
      | ok cs =>
        cases hL : chunkLoop cs with
        | error e => simp [process_recording_event, hG, hI, hL, bind, Except.bind] at h
        | ok u =>
          simp [process_recording_event, hG, hI, hL, bind, Except.bind,
            pure, Except.pure] at h
          subst h
          simp only [List.mem_singleton] at hw
          subst hw
          refine ⟨?_, ?_⟩ <;> simp [getField]

/-- C1 witness: the SMS handler at a concrete event. -/
theorem claim_record_id_and_partition_key_witness :
    getField
      (StoreWrite.item
        (StoreWrite.mk "call-logs"
          [("id", Val.str "evt-1"),
           ("callId", Val.str "m1"),
           ("type", Val.str "sms"),
           ("direction", Val.str "inbound"),
           ("data", Val.obj
             [("id", Val.str "evt-1"),
              ("type", Val.str "sms_received"),
              ("messageId", Val.str "m1"),
              ("from", Val.null),
              ("to", Val.null),
              ("message", Val.null),
              ("receivedAt", Val.null),
              ("processedAt", Val.str "T")])]))
      "callId" = some (dget [("messageId", Val.str "m1")] "messageId") :=
  ((claim_record_id_and_partition_key "ep" "evt-1" [("messageId", Val.str "m1")] "T").1
    _ rfl _ (List.mem_singleton.mpr rfl)).2

/-- The data payload of the C3 scenario envelope. -/
def c3Data : List (String × Val) :=
  [("messageId", Val.str "m1"), ("from", Val.str "+1"), ("to", Val.str "+2"),
   ("message", Val.str "hi"), ("receivedTimestamp", Val.str "2024-01-01T00:00:00Z")]

/-- The record the spec scenario says is stored for the C3 envelope. -/
def c3SpecRecord : List (String × Val) :=
  [("id", Val.str "evt-1"), ("partitionKey", Val.str "m1"), ("type", Val.str "sms"),
   ("direction", Val.str "inbound"), ("from", Val.str "+1"), ("to", Val.str "+2"),
   ("message", Val.str "hi")]

/-- The record the code actually stores for the C3 envelope: the partition
key field is named `callId`, and `from`/`to`/`message` sit inside a nested
`data` object together with `messageId`, `receivedAt` and `processedAt`. -/
def c3StoredRecord (now : String) : List (String × Val) :=
  [("id", Val.str "evt-1"),
   ("callId", Val.str "m1"),
   ("type", Val.str "sms"),
   ("direction", Val.str "inbound"),
   ("data", Val.obj
     [("id", Val.str "evt-1"),
      ("type", Val.str "sms_received"),
      ("messageId", Val.str "m1"),
      ("from", Val.str "+1"),
      ("to", Val.str "+2"),
      ("message", Val.str "hi"),
      ("receivedAt", Val.str "2024-01-01T00:00:00Z"),
      ("processedAt", Val.str now)])]

/-- C3 counterexample: on the scenario envelope the stored record is not
the record the claim states — it has no `partitionKey` field and no
top-level `from` field. -/
theorem claim_sms_scenario_counterexample :
    process_sms_received (some "https://cosmos.example") "evt-1" c3Data "2024-01-02T00:00:00Z"
      = Except.ok [StoreWrite.mk "call-logs" (c3StoredRecord "2024-01-02T00:00:00Z")] ∧
    c3StoredRecord "2024-01-02T00:00:00Z" ≠ c3SpecRecord ∧
    getField (c3StoredRecord "2024-01-02T00:00:00Z") "partitionKey" = none ∧
    getField (c3StoredRecord "2024-01-02T00:00:00Z") "from" = none :=
  ⟨rfl, by decide, rfl, rfl⟩

/-- C3 amended: on the scenario envelope the SMS handler stores exactly one
record: id `evt-1`, partition-key field `callId` equal to the payload's
`messageId` (`m1`), type `sms`, direction fixed to `inbound`, with the
`from`/`to`/`message` values inside the nested `data` object. -/
theorem claim_sms_scenario_amended (ep now : String) :
    process_sms_received (some ep) "evt-1" c3Data now
      = Except.ok [StoreWrite.mk "call-logs" (c3StoredRecord now)] := rfl

/-- C4: the chat-message handler raises `TypeError` on an event whose data
lacks `threadId` (and likewise `senderId`), because the log statement
slices the `None` value; so it does not treat the absent optional field as
null and complete. The thread-created handler fails the same way. -/
theorem claim_chat_missing_field_raises :
    process_chat_message (some "https://cosmos.example") "evt-1" [] "T"
      = Except.error (PyErr.typeError "NoneType object is not subscriptable") ∧
    process_chat_message (some "https://cosmos.example") "evt-1"
        [("threadId", Val.str "t1")] "T"
      = Except.error (PyErr.typeError "NoneType object is not subscriptable") ∧
    process_thread_created "evt-1" []
      = Except.error (PyErr.typeError "NoneType object is not subscriptable") :=
  ⟨rfl, rfl, rfl⟩

/-- C5: for any event type outside the known set, routing in
`process_chat_event` completes without error, performs no store write, and
logs exactly one warning. -/
theorem claim_unknown_event_type_no_write (cfg : Option String)
    (et eid : String) (data : List (String × Val)) (now : String)
    (h : et ∉ knownEventTypes) :
    process_chat_event cfg et eid data now
      = Except.ok ([], ["Unknown chat event type: " ++ et]) := by
  simp only [knownEventTypes, List.mem_cons, List.not_mem_nil, or_false,
    not_or] at h
  obtain ⟨h1, h2, h3, h4, h5⟩ := h
  simp [process_chat_event, h2, h3, h4]

/-- C5 witness: a concrete unknown event type. -/
theorem claim_unknown_event_type_no_write_witness :
    "Contoso.Custom.NewKind" ∉ knownEventTypes ∧
    process_chat_event (some "ep") "Contoso.Custom.NewKind" "evt-9" [] "T"
      = Except.ok ([], ["Unknown chat event type: " ++ "Contoso.Custom.NewKind"]) :=
  ⟨by decide,
   claim_unknown_event_type_no_write (some "ep") "Contoso.Custom.NewKind" "evt-9" [] "T"
     (by decide)⟩

/-- C10: every record the recording handler writes has its `status` field
equal to the constant string `available`, whatever the payload holds. -/
theorem claim_recording_status_available (ep eid : String)
    (data : List (String × Val)) (now : String) (ws : List StoreWrite)
    (h : process_recording_event (some ep) eid data now = Except.ok ws) :
    ∀ w ∈ ws, getField w.item "status" = some (Val.str "available") := by
  intro w hw
  cases hG : pyGetD (dgetD data "recordingStorageInfo" (Val.obj []))
      "recordingChunks" (Val.arr []) with
  | error e => simp [process_recording_event, hG, bind, Except.bind] at h
  | ok rc =>
    cases hI : pyIter rc with
    | error e => simp [process_recording_event, hG, hI, bind, Except.bind] at h
    | ok cs =>
      cases hL : chunkLoop cs with
      | error e => simp [process_recording_event, hG, hI, hL, bind, Except.bind] at h
      | ok u =>
        simp [process_recording_event, hG, hI, hL, bind, Except.bind,
          pure, Except.pure] at h
        subst h
        simp only [List.mem_singleton] at hw
        subst hw
        simp [getField]

/-- C10 witness: a concrete recording event with one chunk. -/
theorem claim_recording_status_available_witness :
    getField
      (StoreWrite.item
        (StoreWrite.mk "call-logs"
          [("id", Val.str "evt-7"),
           ("callId", Val.str "call-1"),
           ("type", Val.str "recording"),
           ("status", Val.str "available"),
           ("chunks", Val.arr [Val.obj [("contentLocation", Val.str "https://loc")]]),
           ("processedAt", Val.str "T")]))
      "status" = some (Val.str "available") :=
  claim_recording_status_available "ep" "evt-7"
    [("serverCallId", Val.str "call-1"),
     ("recordingStorageInfo", Val.obj
       [("recordingChunks", Val.arr [Val.obj [("contentLocation", Val.str "https://loc")]])])]
    "T" _ rfl _ (List.mem_singleton.mpr rfl)

/-- C6: with the store configured, a recording event whose
`recordingStorageInfo` is absent, or whose `recordingChunks` list is
empty, still produces exactly one stored record whose `chunks` field is
the empty list. -/
theorem claim_recording_empty_chunks (ep eid : String)
    (data : List (String × Val)) (now : String) :
    (getField data "recordingStorageInfo" = none →
      ∃ w, process_recording_event (some ep) eid data now = Except.ok [w] ∧
        getField w.item "chunks" = some (Val.arr [])) ∧
    (∀ rs, getField data "recordingStorageInfo" = some (Val.obj rs) →
      getField rs "recordingChunks" = some (Val.arr []) →
      ∃ w, process_recording_event (some ep) eid data now = Except.ok [w] ∧
        getField w.item "chunks" = some (Val.arr [])) := by
  constructor
  · intro h
    refine ⟨StoreWrite.mk "call-logs"
      [("id", Val.str eid),
       ("callId", dget data "serverCallId"),
       ("type", Val.str "recording"),
       ("status", Val.str "available"),
       ("chunks", Val.arr []),
       ("processedAt", Val.str now)], ?_, ?_⟩
    · simp [process_recording_event, dgetD, h, pyGetD, pyIter, chunkLoop,
        bind, Except.bind, pure, Except.pure, getField]
    · simp [getField]
  · intro rs hrs hchunks
    refine ⟨StoreWrite.mk "call-logs"
      [("id", Val.str eid),
       ("callId", dget data "serverCallId"),
       ("type", Val.str "recording"),
       ("status", Val.str "available"),
       ("chunks", Val.arr []),
       ("processedAt", Val.str now)], ?_, ?_⟩
    · simp [process_recording_event, dgetD, hrs, hchunks, pyGetD, pyIter, chunkLoop,
        bind, Except.bind, pure, Except.pure]
    · simp [getField]

/-- C6 witness: a recording event with `recordingStorageInfo` absent. -/
theorem claim_recording_empty_chunks_witness :
    ∃ w, process_recording_event (some "ep") "evt-5" [("serverCallId", Val.str "c1")] "T"
        = Except.ok [w] ∧
      getField w.item "chunks" = some (Val.arr []) :=
  (claim_recording_empty_chunks "ep" "evt-5" [("serverCallId", Val.str "c1")] "T").1 rfl

/-- C7 counterexample: with the store endpoint unconfigured, the snapshot's
store-status field is the string `"not configured"` (with a space), not
the exact value `"not_configured"` the claim states. -/
theorem claim_health_not_configured_counterexample :
    getField (health_check none ProbeResult.ok "2024-01-01T00:00:00Z").snapshot "cosmos_db"
      = some "not configured" ∧
    "not configured" ≠ "not_configured" ∧
    (health_check none ProbeResult.ok "2024-01-01T00:00:00Z").clientConstructions = 0 :=
  ⟨rfl, by decide, rfl⟩

/-- C7 amended: the health reporter never raises — it returns a snapshot
with a store-status field on every tick. When the probe succeeds the field
is `"healthy"`; when the probe fails it is `"unhealthy: "` followed by the
captured error text (a non-empty string containing `unhealthy`); when the
store endpoint is unconfigured it is exactly `"not configured"` (with a
space, not an underscore) and no store client is constructed. -/
theorem claim_health_reporter_amended (cosmosEndpoint : Option String)
    (probe : ProbeResult) (now : String) :
    (∃ v, getField (health_check cosmosEndpoint probe now).snapshot "cosmos_db" = some v) ∧
    (cosmosEndpoint = none →
      getField (health_check cosmosEndpoint probe now).snapshot "cosmos_db"
        = some "not configured" ∧
      (health_check cosmosEndpoint probe now).clientConstructions = 0) ∧
    (∀ u, cosmosEndpoint = some u → probe = ProbeResult.ok →
      getField (health_check cosmosEndpoint probe now).snapshot "cosmos_db"
        = some "healthy") ∧
    (∀ u e, cosmosEndpoint = some u → probe = ProbeResult.fail e →
      getField (health_check cosmosEndpoint probe now).snapshot "cosmos_db"
        = some ("unhealthy: " ++ e) ∧
      ("unhealthy: " ++ e) ≠ "" ∧
      (health_check cosmosEndpoint probe now).clientConstructions = 1) := by
  refine ⟨?_, ?_, ?_, ?_⟩
  · cases cosmosEndpoint with
    | none => exact ⟨"not configured", rfl⟩
    | some u =>
      cases probe with
      | ok => exact ⟨"healthy", rfl⟩
      | fail e => exact ⟨"unhealthy: " ++ e, by simp [health_check, getField]⟩
  · intro h
    subst h
    exact ⟨rfl, rfl⟩
  · intro u hu hp
    subst hu
    subst hp
    rfl
  · intro u e hu hp
    subst hu
    subst hp
    refine ⟨by simp [health_check, getField], ?_, rfl⟩
    intro h
    have hlen := congrArg String.length h
    simp [String.length_append] at hlen
    exact absurd hlen.1 (by decide)

/-- C7 witness: the failure branch at a concrete endpoint and error. -/
theorem claim_health_reporter_amended_witness :
    getField (health_check (some "https://cosmos.example")
        (ProbeResult.fail "connection reset") "T").snapshot "cosmos_db"
      = some ("unhealthy: " ++ "connection reset") ∧
    ("unhealthy: " ++ "connection reset") ≠ "" ∧
    (health_check (some "https://cosmos.example")
        (ProbeResult.fail "connection reset") "T").clientConstructions = 1 :=
  (claim_health_reporter_amended (some "https://cosmos.example")
    (ProbeResult.fail "connection reset") "T").2.2.2
    "https://cosmos.example" "connection reset" rfl rfl

/-- Whether an optional field value is present and a string. -/
def isStrVal : Option Val → Bool
  | some (Val.str _) => true
  | _ => false

theorem parse_envelope_malformed_of_bad_id (fields : List (String × Val))
    (h : isStrVal (getField fields "id") = false) :
    parse_envelope (Val.obj fields) = Except.error EnvelopeErr.malformedEnvelope := by
  rcases hid : getField fields "id" with _ | v
  · simp [parse_envelope, hid]
  · cases v
    case str s => rw [hid] at h; simp [isStrVal] at h
    all_goals simp [parse_envelope, hid]

theorem parse_envelope_malformed_of_bad_event_type (fields : List (String × Val))
    (h : isStrVal (getField fields "event_type") = false) :
    parse_envelope (Val.obj fields) = Except.error EnvelopeErr.malformedEnvelope := by
  rcases hid : getField fields "id" with _ | v
  · simp [parse_envelope, hid]
  · cases v
    case str s =>
      rcases het : getField fields "event_type" with _ | w
      · simp [parse_envelope, hid, het]
      · cases w
        case str s2 => rw [het] at h; simp [isStrVal] at h
        all_goals simp [parse_envelope, hid, het]
    all_goals simp [parse_envelope, hid]

/-- C8: a raw notification whose `id` or `event_type` is absent or not a
string fails the pipeline with `MalformedEnvelope`; no handler runs, so no
store write occurs. -/
theorem claim_malformed_envelope (cfg : Option String) (now : String)
    (raw : Val) (fields : List (String × Val))
    (hraw : raw = Val.obj fields)
    (h : isStrVal (getField fields "id") = false ∨
         isStrVal (getField fields "event_type") = false) :
    ingest cfg raw now = Except.error IngestErr.malformedEnvelope := by
  subst hraw
  have hp : parse_envelope (Val.obj fields) = Except.error EnvelopeErr.malformedEnvelope := by
    rcases h with h | h
    · exact parse_envelope_malformed_of_bad_id fields h
    · exact parse_envelope_malformed_of_bad_event_type fields h
  simp [ingest, hp]

/-- C8 witness: an envelope missing `id`. -/
theorem claim_malformed_envelope_witness :
    isStrVal (getField [("event_type", Val.str "Microsoft.Communication.SMSReceived")] "id")
      = false ∧
    ingest (some "ep")
        (Val.obj [("event_type", Val.str "Microsoft.Communication.SMSReceived")]) "T"
      = Except.error IngestErr.malformedEnvelope :=
  ⟨by decide,
   claim_malformed_envelope (some "ep") "T" _
     [("event_type", Val.str "Microsoft.Communication.SMSReceived")] rfl
     (Or.inl (by decide))⟩

/-- C9 counterexample: a request to `/api/v1/sms/send` whose body lacks the
required `to` field fails with HTTP 400, but its JSON body holds only an
`error` field — no `type` field — because the in-view validation returns
bypass the `handle_errors` translation. -/
theorem claim_rest_error_body_counterexample :
    (send_sms_endpoint (some [("from", Val.str "+1")])
        (Except.ok (SmsSendResult.mk "m" "+2" true 202))).status = 400 ∧
    getField (send_sms_endpoint (some [("from", Val.str "+1")])
        (Except.ok (SmsSendResult.mk "m" "+2" true 202))).body "error"
      = some (Val.str "Missing required field: to") ∧
    getField (send_sms_endpoint (some [("from", Val.str "+1")])
        (Except.ok (SmsSendResult.mk "m" "+2" true 202))).body "type"
      = none :=
  ⟨rfl, rfl, rfl⟩

/-- C9 amended: every failure that reaches the facade as an exception is
converted by `handle_errors` into a JSON body with both `error` and `type`
fields — status 400 for `ValueError`, the upstream status for
`HttpResponseError` when it is present and non-zero (500 when absent), and
500 for anything else — and no exception escapes (`handle_errors` returns
a response for every outcome). The in-view validation returns, however,
answer 400 with a body holding only an `error` field. -/
theorem claim_rest_error_body_amended (m : String) (n : Nat)
    (data : List (String × Val)) (send : Except PyExc SmsSendResult) :
    handle_errors (Except.error (PyExc.valueError m))
      = HttpResponse.mk
          [("error", Val.str m), ("type", Val.str "validation_error")] 400 ∧
    (n ≠ 0 →
      (handle_errors (Except.error (PyExc.httpResponseError m (some n)))).status = n ∧
      getField (handle_errors (Except.error (PyExc.httpResponseError m (some n)))).body
        "error" = some (Val.str m) ∧
      getField (handle_errors (Except.error (PyExc.httpResponseError m (some n)))).body
        "type" = some (Val.str "acs_error")) ∧
    (handle_errors (Except.error (PyExc.httpResponseError m none))).status = 500 ∧
    handle_errors (Except.error (PyExc.otherError m))
      = HttpResponse.mk
          [("error", Val.str "Internal server error"),
           ("type", Val.str "internal_error")] 500 ∧
    (data ≠ [] → getField data "from" = none →
      send_sms_endpoint (some data) send
        = HttpResponse.mk [("error", Val.str "Missing required field: from")] 400) := by
  refine ⟨rfl, ?_, rfl, rfl, ?_⟩
  · intro hn
    refine ⟨?_, ?_, ?_⟩
    · simp [handle_errors, hn]
    · simp [handle_errors, getField]
    · simp [handle_errors, getField]
  · intro hdata hfrom
    simp [send_sms_endpoint, send_sms_view, hdata, hfrom, handle_errors]

/-- C9 amended witness: a concrete upstream failure with status 429. -/
theorem claim_rest_error_body_amended_witness :
    (handle_errors (Except.error (PyExc.httpResponseError "throttled" (some 429)))).status
      = 429 ∧
    getField (handle_errors
        (Except.error (PyExc.httpResponseError "throttled" (some 429)))).body "error"
      = some (Val.str "throttled") ∧
    getField (handle_errors
        (Except.error (PyExc.httpResponseError "throttled" (some 429)))).body "type"
      = some (Val.str "acs_error") :=
  (claim_rest_error_body_amended "throttled" 429 []
    (Except.ok (SmsSendResult.mk "m" "+2" true 202))).2.1 (by decide)
